import Mathlib

/-
Verification of the sectoral diff report pipeline (sectoral_diff_report.py).

The pipeline compares a climate simulation's emission output against an
EDGAR-style reference inventory.  We embed the pandas code shallowly:

* the simulation table (wide form, arbitrary numeric columns) becomes a
  `DataFrame` of association-list rows over ℚ;
* the mapping table, the long-form reference table and the two reports
  become lists of typed rows mirroring the columns the code reads;
* floating-point NaN/inf appearing in `diff` are represented by the
  extended value type `EVal`; the NaN produced by the left join for an
  unmatched `Edgar_Values` is an `Option ℚ` (`none` = NaN);
* `pd.read_csv` failures and the missing-year-column failure of `melt`
  become `Except String`;
* for the frame-effect claim, stages are additionally embedded as
  programs over an explicit store of frames, where `.copy()` allocates
  and in-place column assignment mutates a store slot.
-/

namespace SectoralDiff

/-- One wide-form row: association list from column name to numeric value. -/
abbrev Row := List (String × ℚ)

/-- A wide-form data frame: column names plus rows. -/
structure DataFrame where
  cols : List String
  rows : List Row
deriving DecidableEq

/-- Lookup of a column value inside one row. -/
def lookupQ : Row → String → Option ℚ
  | [], _ => none
  | (c, v) :: r, c' => if c = c' then some v else lookupQ r c'

/-- Value of column `c` in row `r` (pandas cell access on an existing column). -/
def getVal (r : Row) (c : String) : ℚ :=
  (lookupQ r c).getD 0

/-- Column assignment `row[c] = v`: overwrite `c` if present, else add it. -/
def setCol (r : Row) (c : String) (v : ℚ) : Row :=
  (r.filter fun p => decide (p.1 ≠ c)) ++ [(c, v)]

/-- Construction parameters of the `SectoralDiffReport` class. -/
structure SectoralDiffReport where
  iso_alpha_3 : String
  init_year : ℤ
  ref_year : ℤ
  ref_primary_id : ℤ
deriving DecidableEq

/-- `simulation_df_filtered['year'] = simulation_df_filtered['time_period'] + self.init_year`. -/
def addYearColumn (cfg : SectoralDiffReport) (simulation_df : DataFrame) : DataFrame :=
  { cols := if "year" ∈ simulation_df.cols then simulation_df.cols
            else simulation_df.cols ++ ["year"],
    rows := simulation_df.rows.map fun r =>
      setCol r "year" (getVal r "time_period" + (cfg.init_year : ℚ)) }

/-- The boolean row mask `(year == ref_year) & (primary_id == ref_primary_id)`. -/
def refSliceP (cfg : SectoralDiffReport) (r : Row) : Bool :=
  decide (getVal r "year" = (cfg.ref_year : ℚ)) &&
    decide (getVal r "primary_id" = (cfg.ref_primary_id : ℚ))

/-- Simulation Filter: copy the input, derive the `year` column, keep only the
reference (year, primary_id) slice. -/
def load_simulation_output_data (cfg : SectoralDiffReport) (simulation_df : DataFrame) :
    DataFrame :=
  let simulation_df_filtered := addYearColumn cfg simulation_df
  { simulation_df_filtered with
    rows := simulation_df_filtered.rows.filter fun r => refSliceP cfg r }

/-- One row of the mapping table (columns the pipeline reads; `Edgar_Class` is
required by the later groupby). -/
structure MappingRow where
  Sector : String
  Subsector : String
  Vars : String
  Edgar_Class : String
deriving DecidableEq

/-- A mapping row augmented with its aggregated `Simulation_Values` column. -/
structure AugRow where
  Sector : String
  Subsector : String
  Vars : String
  Edgar_Class : String
  Simulation_Values : ℚ
deriving DecidableEq

/-- One raw row of the reference inventory file. -/
structure EdgarRawRow where
  Code : String
  CSC_Subsector : String
  Gas : String
  yearVals : List (String × ℚ)
deriving DecidableEq

/-- The raw reference inventory file: its year-column labels and its rows. -/
structure EdgarCSV where
  yearCols : List String
  rows : List EdgarRawRow
deriving DecidableEq

/-- One row of the long-form reference table produced by the reference ETL. -/
structure EdgarRow where
  Edgar_Class : String
  Year : ℤ
  Edgar_Values : ℚ
deriving DecidableEq

/-- Extended numeric value: a finite rational, an IEEE infinity, or NaN. -/
inductive EVal where
  | fin (q : ℚ)
  | posInf
  | negInf
  | nan
deriving DecidableEq

/-- An `EVal` is undefined when it is not a finite number. -/
def EVal.isUndefined : EVal → Bool
  | .fin _ => false
  | _ => true

/-- IEEE semantics of `(s - r) / r` where `r` may be NaN (`none`): NaN
propagates, division by zero yields a signed infinity or NaN. -/
def diffVal : ℚ → Option ℚ → EVal
  | _, none => .nan
  | s, some rv =>
    if rv = 0 then
      if 0 < s - rv then .posInf else if s - rv < 0 then .negInf else .nan
    else .fin ((s - rv) / rv)

/-- One row of the detailed diff report. -/
structure DetailedRow where
  Year : ℤ
  Subsector : String
  Edgar_Class : String
  Simulation_Values : ℚ
  Edgar_Values : Option ℚ
  diff : EVal
deriving DecidableEq

/-- One row of the subsector diff report. -/
structure SubsectorRow where
  Year : ℤ
  Subsector : String
  Simulation_Values : ℚ
  Edgar_Values : ℚ
  diff : EVal
deriving DecidableEq

/-- Mapping Loader: `pd.read_csv(self.mapping_table_path)`.  Reading fails
exactly when the file cannot be read (`none`); the loader performs no schema
validation of the parsed content, whatever it is. -/
def load_mapping_table {α : Type} (file : Option α) : Except String α :=
  match file with
  | none => Except.error "IOError: could not read mapping.csv"
  | some mapping_df => Except.ok mapping_df

/-- Reference ETL: read the inventory, filter to the country code, build
`Edgar_Class = CSC_Subsector ++ ":" ++ Gas`, and melt the single year column
named `str(ref_year)`; `melt` fails when that column is absent. -/
def edgar_data_etl (cfg : SectoralDiffReport) (file : Option EdgarCSV) :
    Except String (List EdgarRow) :=
  match file with
  | none => Except.error "IOError: could not read the reference inventory file"
  | some edgar_csv =>
    let filtered := edgar_csv.rows.filter fun r => decide (r.Code = cfg.iso_alpha_3)
    if toString cfg.ref_year ∈ edgar_csv.yearCols then
      Except.ok (filtered.map fun r =>
        { Edgar_Class := r.CSC_Subsector ++ ":" ++ r.Gas,
          Year := cfg.ref_year,
          Edgar_Values := (lookupQ r.yearVals (toString cfg.ref_year)).getD 0 })
    else
      Except.error ("SchemaError: missing reference year column " ++ toString cfg.ref_year)

/-- Split a character list on a separator character, keeping empty pieces,
with the semantics of Python `str.split(sep)`. -/
def splitChars (sep : Char) : List Char → List Char → List (List Char)
  | [], acc => [acc.reverse]
  | c :: cs, acc =>
    if c = sep then acc.reverse :: splitChars sep cs []
    else splitChars sep cs (c :: acc)

/-- `row['Vars'].split(':')`. -/
def varsOf (vars : String) : List String :=
  (splitChars ':' vars.data []).map fun l => String.mk l

/-- The variables of one mapping row that are absent from the simulation columns. -/
def missingInRow (simulation_df_cols : List String) (row : MappingRow) : List String :=
  (varsOf row.Vars).filter fun v => decide (v ∉ simulation_df_cols)

/-- One iteration of the aggregation loop: sum, over the matched columns and
over all rows of the simulation slice, the values feeding this mapping row. -/
def augmentRow (simulation_df : DataFrame) (row : MappingRow) : AugRow :=
  let vars_list := varsOf row.Vars
  let matching_columns := vars_list.filter fun v => decide (v ∈ simulation_df.cols)
  let subsector_total_emissions : ℚ :=
    if matching_columns.isEmpty then 0
    else (matching_columns.map fun c =>
      ((simulation_df.rows.map fun r => getVal r c)).sum).sum
  { Sector := row.Sector, Subsector := row.Subsector, Vars := row.Vars,
    Edgar_Class := row.Edgar_Class, Simulation_Values := subsector_total_emissions }

/-- Python set insertion (`set.add` via `set.update`, element-wise). -/
def setInsert (s : List String) (v : String) : List String :=
  if v ∈ s then s else s ++ [v]

/-- `missing_variables.update(missing_in_row)`. -/
def setUpdate (s : List String) (vs : List String) : List String :=
  vs.foldl setInsert s

/-- Aggregator: the mapping table augmented with `Simulation_Values`, plus the
diagnostic collection of mapping variables absent from the simulation slice. -/
def calculate_ssp_emission_totals (simulation_df : DataFrame)
    (mapping_df : List MappingRow) : List AugRow × List String :=
  (mapping_df.map (augmentRow simulation_df),
   mapping_df.foldl
     (fun missing_variables row =>
       setUpdate missing_variables (missingInRow simulation_df.cols row)) [])

/-- First-occurrence list of distinct elements (the distinct group keys of a
pandas groupby). -/
def firstUniq {α : Type} [DecidableEq α] : List α → List α
  | [] => []
  | a :: l => a :: firstUniq (l.filter fun b => decide (b ≠ a))
termination_by l => l.length
decreasing_by
  exact Nat.lt_succ_of_le (List.length_filter_le _ _)

/-- The (Subsector, Edgar_Class) group key of an augmented mapping row. -/
def pairOf (r : AugRow) : String × String :=
  (r.Subsector, r.Edgar_Class)

/-- One row of `groupby(['Subsector','Edgar_Class'])['Simulation_Values'].sum()`. -/
structure AggRow where
  Subsector : String
  Edgar_Class : String
  Simulation_Values : ℚ
deriving DecidableEq

/-- One output row of the (Subsector, Edgar_Class) groupby: the group key and
the sum of `Simulation_Values` over the mapping rows in the group. -/
def aggRowOf (detailed_report_draft_df : List AugRow) (k : String × String) : AggRow :=
  { Subsector := k.1, Edgar_Class := k.2,
    Simulation_Values :=
      ((detailed_report_draft_df.filter fun r => decide (pairOf r = k)).map
        fun r => r.Simulation_Values).sum }

/-- `groupby(['Subsector', 'Edgar_Class'])['Simulation_Values'].sum().reset_index()`. -/
def groupSimValues (detailed_report_draft_df : List AugRow) : List AggRow :=
  (firstUniq (detailed_report_draft_df.map pairOf)).map
    (aggRowOf detailed_report_draft_df)

/-- `pd.merge(..., how='left', on='Edgar_Class')`: every left row is kept;
a left row pairs with each matching right row, or with `none` when unmatched. -/
def mergeLeftEdgar (agg : List AggRow) (edgar_df : List EdgarRow) :
    List (AggRow × Option ℚ) :=
  agg.flatMap fun a =>
    match edgar_df.filter fun e => decide (e.Edgar_Class = a.Edgar_Class) with
    | [] => [(a, none)]
    | ms => ms.map fun e => (a, some e.Edgar_Values)

/-- One detailed report row built from a merged row: compute `diff`, force
`Year` to the reference year, select the report columns. -/
def detailedRowOf (ref_year : ℤ) (p : AggRow × Option ℚ) : DetailedRow :=
  { Year := ref_year, Subsector := p.1.Subsector, Edgar_Class := p.1.Edgar_Class,
    Simulation_Values := p.1.Simulation_Values, Edgar_Values := p.2,
    diff := diffVal p.1.Simulation_Values p.2 }

/-- Detailed Diff Builder: group, left-join the reference table, compute
`diff`, force `Year` to the reference year, select the report columns. -/
def generate_detailed_diff_report (ref_year : ℤ)
    (detailed_report_draft_df : List AugRow) (edgar_df : List EdgarRow) :
    List DetailedRow :=
  (mergeLeftEdgar (groupSimValues detailed_report_draft_df) edgar_df).map
    (detailedRowOf ref_year)

/-- One subsector report row: sum both value columns over the subsector group
(the pandas sum skips NaN, so a missing `Edgar_Values` contributes 0),
recompute `diff`, force `Year`. -/
def subsectorRowOf (ref_year : ℤ)
    (detailed_diff_report_complete : List DetailedRow) (s : String) : SubsectorRow :=
  let grp := detailed_diff_report_complete.filter fun r => decide (r.Subsector = s)
  let simSum := (grp.map fun r => r.Simulation_Values).sum
  let edgSum := (grp.map fun r => r.Edgar_Values.getD 0).sum
  { Year := ref_year, Subsector := s, Simulation_Values := simSum,
    Edgar_Values := edgSum, diff := diffVal simSum (some edgSum) }

/-- Subsector Diff Builder: group the detailed report by `Subsector` and build
one row per distinct subsector. -/
def generate_subsector_diff_report (ref_year : ℤ)
    (detailed_diff_report_complete : List DetailedRow) : List SubsectorRow :=
  (firstUniq (detailed_diff_report_complete.map fun r => r.Subsector)).map
    (subsectorRowOf ref_year detailed_diff_report_complete)

/-- An output report file written by the orchestrator. -/
inductive ReportFile where
  | detailed (name : String) (rows : List DetailedRow)
  | subsector (name : String) (rows : List SubsectorRow)
deriving DecidableEq

/-- Orchestrator: sequence the loaders and builders; on success write the two
report files, on a fatal loader error abort with no file written. -/
def generate_diff_reports (cfg : SectoralDiffReport)
    (mappingFile : Option (List MappingRow)) (edgarFile : Option EdgarCSV)
    (simulation_df : DataFrame) :
    Except String (List DetailedRow × List SubsectorRow) × List ReportFile :=
  match load_mapping_table mappingFile with
  | Except.error e => (Except.error e, [])
  | Except.ok mapping_df =>
    let simulation_df_filtered := load_simulation_output_data cfg simulation_df
    match edgar_data_etl cfg edgarFile with
    | Except.error e => (Except.error e, [])
    | Except.ok edgar_df =>
      let detailed_report_draft_df :=
        (calculate_ssp_emission_totals simulation_df_filtered mapping_df).1
      let detailed_diff_report_complete :=
        generate_detailed_diff_report cfg.ref_year detailed_report_draft_df edgar_df
      let subsector_diff_report :=
        generate_subsector_diff_report cfg.ref_year detailed_diff_report_complete
      (Except.ok (detailed_diff_report_complete, subsector_diff_report),
       [ReportFile.detailed "detailed_diff_report_all-sectors.csv"
          detailed_diff_report_complete,
        ReportFile.subsector "subsector_diff_report_all-sectors.csv"
          subsector_diff_report])

/-- A frame held in the store: one pandas data frame of some stage. -/
inductive Frame where
  | simF (df : DataFrame)
  | mapF (rows : List MappingRow)
  | augF (rows : List AugRow)
  | detF (rows : List DetailedRow)
deriving DecidableEq

/-- Default frame used for out-of-range store reads. -/
def emptyFrame : Frame :=
  Frame.simF { cols := [], rows := [] }

/-- Store embedding of the Simulation Filter: `.copy()` allocates a fresh
frame, the `year` column assignment mutates only that copy, the boolean-mask
selection builds a further new frame. -/
def load_simulation_output_data_store (cfg : SectoralDiffReport)
    (store : List Frame) (h : ℕ) : List Frame × ℕ :=
  let simulation_df := match store.getD h emptyFrame with
    | Frame.simF df => df
    | _ => { cols := [], rows := [] }
  let s₁ := store ++ [Frame.simF simulation_df]
  let h₁ := store.length
  let s₂ := s₁.set h₁ (Frame.simF (addYearColumn cfg simulation_df))
  let s₃ := s₂ ++ [Frame.simF (load_simulation_output_data cfg simulation_df)]
  (s₃, s₂.length)

/-- Store embedding of the Aggregator: `mapping_df.copy()` allocates the draft
frame; the `Simulation_Values` column and the per-row `at` updates mutate only
that draft frame; the simulation slice is only read. -/
def calculate_ssp_emission_totals_store (simulation_df : DataFrame)
    (store : List Frame) (h : ℕ) : List Frame × ℕ × List String :=
  let mapping_df := match store.getD h emptyFrame with
    | Frame.mapF m => m
    | _ => []
  let s₁ := store ++ [Frame.mapF mapping_df]
  let h₁ := store.length
  let result := calculate_ssp_emission_totals simulation_df mapping_df
  let s₂ := s₁.set h₁ (Frame.augF result.1)
  (s₂, h₁, result.2)

/-- Store embedding of the Detailed Diff Builder: `.copy()` allocates, the
groupby and merge build new frames and the `diff` / `Year` assignments mutate
only those. -/
def generate_detailed_diff_report_store (ref_year : ℤ) (edgar_df : List EdgarRow)
    (store : List Frame) (h : ℕ) : List Frame × ℕ :=
  let detailed_report_draft_df := match store.getD h emptyFrame with
    | Frame.augF a => a
    | _ => []
  let s₁ := store ++ [Frame.augF detailed_report_draft_df]
  let s₂ := s₁ ++
    [Frame.detF (generate_detailed_diff_report ref_year detailed_report_draft_df edgar_df)]
  (s₂, s₁.length)

/-- The reference value a left-joined row picks up for an `Edgar_Class` key
when the reference table has at most one row per key. -/
def edgarLookup (edgar_df : List EdgarRow) (k : String) : Option ℚ :=
  ((edgar_df.filter fun e => decide (e.Edgar_Class = k)).head?).map fun e => e.Edgar_Values

/-- Replace a missing reference value by an explicit zero in one detailed row. -/
def fillEdgarZero (r : DetailedRow) : DetailedRow :=
  { r with Edgar_Values := some (r.Edgar_Values.getD 0) }

/-- A raw CSV file as `read_csv` returns it: header and string cells. -/
structure RawCSV where
  cols : List String
  cells : List (List String)
deriving DecidableEq

/-! ### Concrete data used by witnesses and counterexamples -/

/-- A simulation slice with no variable columns beyond the bookkeeping ones. -/
def simC1 : DataFrame :=
  { cols := ["time_period", "primary_id", "year"], rows := [] }

/-- First example mapping row: both variables absent from `simC1`. -/
def mapRowC1a : MappingRow :=
  { Sector := "Energy", Subsector := "Transport", Vars := "CO2_A:CO2_B",
    Edgar_Class := "Transport:CO2" }

/-- Second example mapping row: references `CO2_A` a second time. -/
def mapRowC1b : MappingRow :=
  { Sector := "Energy", Subsector := "Industry", Vars := "CO2_A",
    Edgar_Class := "Industry:CO2" }

/-- Example mapping table in which `CO2_A` is referenced by two rows. -/
def mapC1 : List MappingRow := [mapRowC1a, mapRowC1b]

/-- Augmented mapping table with a single subsector row. -/
def draftC2 : List AugRow :=
  [{ Sector := "Energy", Subsector := "Transport", Vars := "x",
     Edgar_Class := "Transport:CO2", Simulation_Values := 10 }]

/-- Reference table with a duplicated `Edgar_Class` key. -/
def edgarC2 : List EdgarRow :=
  [{ Edgar_Class := "Transport:CO2", Year := 2015, Edgar_Values := 5 },
   { Edgar_Class := "Transport:CO2", Year := 2015, Edgar_Values := 7 }]

/-- Reference table with pairwise distinct `Edgar_Class` keys. -/
def edgarC2w : List EdgarRow :=
  [{ Edgar_Class := "Transport:CO2", Year := 2015, Edgar_Values := 5 }]

/-- Augmented mapping table with one row whose class is matched by a zero
reference value. -/
def draftC3 : List AugRow :=
  [{ Sector := "S", Subsector := "A", Vars := "x",
     Edgar_Class := "A:CO2", Simulation_Values := 3 }]

/-- Reference table carrying an explicit zero for the matched class. -/
def edgarC3 : List EdgarRow :=
  [{ Edgar_Class := "A:CO2", Year := 2015, Edgar_Values := 0 }]

/-- A detailed report whose single row has a zero reference value. -/
def detC3 : List DetailedRow :=
  [{ Year := 2015, Subsector := "A", Edgar_Class := "A:CO2",
     Simulation_Values := 3, Edgar_Values := some 0, diff := EVal.nan }]

/-- Construction parameters used by the concrete scenarios. -/
def cfgC5 : SectoralDiffReport :=
  { iso_alpha_3 := "HRV", init_year := 2010, ref_year := 2015, ref_primary_id := 0 }

/-- Simulation row with `time_period = 5`, `primary_id = 0`. -/
def rowC5a : Row := [("time_period", 5), ("primary_id", 0), ("CO2", 3)]

/-- Simulation row with `time_period = 5`, `primary_id = 1`. -/
def rowC5b : Row := [("time_period", 5), ("primary_id", 1), ("CO2", 4)]

/-- Two-row simulation table for the filter scenario. -/
def simC5 : DataFrame :=
  { cols := ["time_period", "primary_id", "CO2"], rows := [rowC5a, rowC5b] }

/-- Reference inventory file lacking the "2015" year column. -/
def edgarC6 : EdgarCSV := { yearCols := ["2014"], rows := [] }

/-- A mapping CSV missing the required `Vars` column. -/
def mappingNoVars : RawCSV :=
  { cols := ["Sector", "Subsector"], cells := [["Energy", "Transport"]] }

/-- A one-frame store holding an empty mapping table. -/
def storeC8 : List Frame := [Frame.mapF []]

/-- Two mapping rows of one subsector, only one of whose classes is matched. -/
def draftC10 : List AugRow :=
  [{ Sector := "S", Subsector := "A", Vars := "x",
     Edgar_Class := "A:CO2", Simulation_Values := 2 },
   { Sector := "S", Subsector := "A", Vars := "y",
     Edgar_Class := "A:CH4", Simulation_Values := 2 }]

/-- Reference table matching only the `A:CO2` class. -/
def edgarC10 : List EdgarRow :=
  [{ Edgar_Class := "A:CO2", Year := 2015, Edgar_Values := 4 }]

/-! ### Lemmas about row access -/

theorem lookupQ_append_none (l₁ l₂ : Row) (c : String) (h : lookupQ l₁ c = none) :
    lookupQ (l₁ ++ l₂) c = lookupQ l₂ c := by
  induction l₁ with
  | nil => simp
  | cons p l ih =>
    obtain ⟨c₁, v₁⟩ := p
    by_cases hc : c₁ = c
    · rw [lookupQ, if_pos hc] at h; cases h
    · rw [lookupQ, if_neg hc] at h
      rw [List.cons_append, lookupQ, if_neg hc]
      exact ih h

theorem lookupQ_append_some (l₁ l₂ : Row) (c : String) (v : ℚ)
    (h : lookupQ l₁ c = some v) : lookupQ (l₁ ++ l₂) c = some v := by
  induction l₁ with
  | nil => cases h
  | cons p l ih =>
    obtain ⟨c₁, v₁⟩ := p
    by_cases hc : c₁ = c
    · rw [lookupQ, if_pos hc] at h
      rw [List.cons_append, lookupQ, if_pos hc]
      exact h
    · rw [lookupQ, if_neg hc] at h
      rw [List.cons_append, lookupQ, if_neg hc]
      exact ih h

theorem lookupQ_filterOut (r : Row) (c c' : String) (h : c' ≠ c) :
    lookupQ (r.filter fun p => decide (p.1 ≠ c)) c' = lookupQ r c' := by
  induction r with
  | nil => simp
  | cons p r ih =>
    obtain ⟨c₁, v₁⟩ := p
    by_cases h₁ : c₁ = c
    · subst h₁
      have hne : ¬ (c₁ = c') := fun e => h (e.symm)
      rw [List.filter_cons, if_neg (by simp)]
      rw [lookupQ, if_neg hne]
      exact ih
    · rw [List.filter_cons, if_pos (by simpa using h₁)]
      by_cases h₂ : c₁ = c'
      · rw [lookupQ, if_pos h₂, lookupQ, if_pos h₂]
      · rw [lookupQ, if_neg h₂, lookupQ, if_neg h₂]
        exact ih

theorem lookupQ_setCol_self (r : Row) (c : String) (v : ℚ) :
    lookupQ (setCol r c v) c = some v := by
  unfold setCol
  have hnone : lookupQ (r.filter fun p => decide (p.1 ≠ c)) c = none := by
    induction r with
    | nil => simp [lookupQ]
    | cons p r ih =>
      obtain ⟨c₁, v₁⟩ := p
      by_cases h₁ : c₁ = c
      · subst h₁; rw [List.filter_cons, if_neg (by simp)]; exact ih
      · rw [List.filter_cons, if_pos (by simpa using h₁), lookupQ, if_neg h₁]
        exact ih
  rw [lookupQ_append_none _ _ _ hnone, lookupQ, if_pos rfl]

theorem lookupQ_setCol_ne (r : Row) (c c' : String) (v : ℚ) (h : c' ≠ c) :
    lookupQ (setCol r c v) c' = lookupQ r c' := by
  unfold setCol
  cases hl : lookupQ (r.filter fun p => decide (p.1 ≠ c)) c' with
  | none =>
    rw [lookupQ_append_none _ _ _ hl, lookupQ, if_neg (fun e => h e.symm)]
    rw [← lookupQ_filterOut r c c' h, hl]
    rfl
  | some w =>
    rw [lookupQ_append_some _ _ _ _ hl, ← lookupQ_filterOut r c c' h, hl]

theorem getVal_setCol_self (r : Row) (c : String) (v : ℚ) :
    getVal (setCol r c v) c = v := by
  rw [getVal, lookupQ_setCol_self]; rfl

theorem getVal_setCol_ne (r : Row) (c c' : String) (v : ℚ) (h : c' ≠ c) :
    getVal (setCol r c v) c' = getVal r c' := by
  rw [getVal, lookupQ_setCol_ne _ _ _ _ h, getVal]

/-! ### Lemmas about the diagnostic missing-variable set -/

theorem mem_setInsert (s : List String) (v x : String) :
    x ∈ setInsert s v ↔ x ∈ s ∨ x = v := by
  by_cases h : v ∈ s
  · simp only [setInsert, if_pos h]
    exact ⟨Or.inl, fun hx => hx.elim id (fun e => e ▸ h)⟩
  · simp [setInsert, if_neg h]

theorem nodup_setInsert (s : List String) (v : String) (h : s.Nodup) :
    (setInsert s v).Nodup := by
  by_cases hv : v ∈ s
  · simpa [setInsert, if_pos hv] using h
  · rw [setInsert, if_neg hv, List.nodup_append]
    refine ⟨h, List.nodup_singleton v, ?_⟩
    intro a ha hb
    rw [List.mem_singleton] at hb
    exact hv (hb ▸ ha)

theorem mem_setUpdate (s vs : List String) (x : String) :
    x ∈ setUpdate s vs ↔ x ∈ s ∨ x ∈ vs := by
  induction vs generalizing s with
  | nil => simp [setUpdate]
  | cons v vs ih =>
    show x ∈ setUpdate (setInsert s v) vs ↔ _
    rw [ih, mem_setInsert]
    simp [List.mem_cons]
    tauto

theorem nodup_setUpdate (s vs : List String) (h : s.Nodup) :
    (setUpdate s vs).Nodup := by
  induction vs generalizing s with
  | nil => simpa [setUpdate]
  | cons v vs ih => exact ih _ (nodup_setInsert _ _ h)

theorem mem_missing_foldl (cols : List String) (mapping : List MappingRow)
    (acc : List String) (x : String) :
    (x ∈ mapping.foldl (fun a row => setUpdate a (missingInRow cols row)) acc) ↔
      x ∈ acc ∨ ∃ m ∈ mapping, x ∈ missingInRow cols m := by
  induction mapping generalizing acc with
  | nil => simp
  | cons m ms ih =>
    rw [List.foldl_cons, ih, mem_setUpdate]
    simp only [List.mem_cons]
    constructor
    · rintro ((h | h) | ⟨m₁, hm₁, hx⟩)
      · exact Or.inl h
      · exact Or.inr ⟨m, Or.inl rfl, h⟩
      · exact Or.inr ⟨m₁, Or.inr hm₁, hx⟩
    · rintro (h | ⟨m₁, (rfl | hm₁), hx⟩)
      · exact Or.inl (Or.inl h)
      · exact Or.inl (Or.inr hx)
      · exact Or.inr ⟨m₁, hm₁, hx⟩

theorem nodup_missing_foldl (cols : List String) (mapping : List MappingRow)
    (acc : List String) (h : acc.Nodup) :
    (mapping.foldl (fun a row => setUpdate a (missingInRow cols row)) acc).Nodup := by
  induction mapping generalizing acc with
  | nil => simpa
  | cons m ms ih => exact ih _ (nodup_setUpdate _ _ h)

/-! ### Lemmas about first-occurrence grouping keys -/

theorem mem_firstUniq {α : Type} [DecidableEq α] (l : List α) (a : α) :
    a ∈ firstUniq l ↔ a ∈ l := by
  induction l using firstUniq.induct with
  | case1 => simp [firstUniq]
  | case2 x l ih =>
    rw [firstUniq]
    simp only [List.mem_cons, ih, List.mem_filter, decide_eq_true_eq]
    by_cases hx : a = x <;> simp [hx]

theorem nodup_firstUniq {α : Type} [DecidableEq α] (l : List α) :
    (firstUniq l).Nodup := by
  induction l using firstUniq.induct with
  | case1 => simp [firstUniq]
  | case2 x l ih =>
    rw [firstUniq, List.nodup_cons]
    refine ⟨?_, ih⟩
    rw [mem_firstUniq, List.mem_filter]
    simp

theorem filter_eq_singleton_of_nodup {α : Type} [DecidableEq α] (l : List α) (a : α)
    (hnd : l.Nodup) (ha : a ∈ l) : l.filter (fun b => decide (b = a)) = [a] := by
  induction l with
  | nil => cases ha
  | cons x l ih =>
    rcases List.mem_cons.mp ha with h | h
    · subst h
      rw [List.filter_cons, if_pos (by simp)]
      have hnil : l.filter (fun b => decide (b = a)) = [] := by
        rw [List.filter_eq_nil_iff]
        intro b hb
        simp only [decide_eq_true_eq]
        intro e
        exact (List.nodup_cons.mp hnd).1 (e ▸ hb)
      rw [hnil]
    · have hxa : ¬ (x = a) := fun e => (List.nodup_cons.mp hnd).1 (e ▸ h)
      rw [List.filter_cons, if_neg (by simpa using hxa)]
      exact ih (List.nodup_cons.mp hnd).2 h

theorem filter_eq_nil_of_not_mem {α : Type} [DecidableEq α] (l : List α) (a : α)
    (ha : a ∉ l) : l.filter (fun b => decide (b = a)) = [] := by
  rw [List.filter_eq_nil_iff]
  intro b hb
  simp only [decide_eq_true_eq]
  intro e
  exact ha (e ▸ hb)

theorem length_filter_eq_of_nodup {α : Type} [DecidableEq α] (l : List α) (a : α)
    (hnd : l.Nodup) :
    (l.filter (fun b => decide (b = a))).length = if a ∈ l then 1 else 0 := by
  by_cases ha : a ∈ l
  · rw [filter_eq_singleton_of_nodup l a hnd ha, if_pos ha]
    rfl
  · rw [filter_eq_nil_of_not_mem l a ha, if_neg ha]
    rfl

/-! ### Sum-partition lemmas -/

theorem sum_map_filter_not {α : Type} (p : α → Bool) (val : α → ℚ) (l : List α) :
    ((l.filter p).map val).sum + ((l.filter fun a => !p a).map val).sum
      = (l.map val).sum := by
  induction l with
  | nil => simp
  | cons a l ih =>
    by_cases hp : p a
    · rw [List.filter_cons, if_pos (by simpa using hp),
        List.filter_cons, if_neg (by simpa using hp)]
      simp only [List.map_cons, List.sum_cons]
      rw [← ih]
      ring
    · rw [List.filter_cons, if_neg (by simpa using hp),
        List.filter_cons, if_pos (by simpa using hp)]
      simp only [List.map_cons, List.sum_cons]
      rw [← ih]
      ring

theorem sum_partition {α κ : Type} [DecidableEq κ] (key : α → κ) (val : α → ℚ) :
    ∀ (keys : List κ) (l : List α), keys.Nodup → (∀ a ∈ l, key a ∈ keys) →
      (keys.map fun k => ((l.filter fun a => decide (key a = k)).map val).sum).sum
        = (l.map val).sum := by
  intro keys
  induction keys with
  | nil =>
    intro l _ hcov
    have hl : l = [] := by
      cases l with
      | nil => rfl
      | cons a l => exact absurd (hcov a (by simp)) (by simp)
    subst hl
    simp
  | cons k ks ih =>
    intro l hnd hcov
    have hnd₁ : k ∉ ks := (List.nodup_cons.mp hnd).1
    have hnd₂ : ks.Nodup := (List.nodup_cons.mp hnd).2
    rw [List.map_cons, List.sum_cons]
    have htail : ∀ k₁ ∈ ks,
        (((l.filter fun a => !decide (key a = k)).filter fun a => decide (key a = k₁)).map
            val).sum
          = ((l.filter fun a => decide (key a = k₁)).map val).sum := by
      intro k₁ hk₁
      have hkk : k₁ ≠ k := fun e => hnd₁ (e ▸ hk₁)
      rw [List.filter_filter]
      refine congrArg List.sum (congrArg (List.map val) ?_)
      apply List.filter_congr
      intro a _
      by_cases hak : key a = k₁
      · have : ¬ (key a = k) := fun e => hkk (hak ▸ e ▸ rfl)
        simp [hak, this, hkk]
      · simp [hak]
    have hcov₂ : ∀ a ∈ l.filter fun a => !decide (key a = k), key a ∈ ks := by
      intro a ha
      rw [List.mem_filter] at ha
      have := hcov a ha.1
      rcases List.mem_cons.mp this with h | h
      · exfalso
        have := ha.2
        simp [h] at this
      · exact h
    have hih := ih (l.filter fun a => !decide (key a = k)) hnd₂ hcov₂
    calc ((l.filter fun a => decide (key a = k)).map val).sum
          + (ks.map fun k₁ => ((l.filter fun a => decide (key a = k₁)).map val).sum).sum
        = ((l.filter fun a => decide (key a = k)).map val).sum
          + (ks.map fun k₁ =>
              (((l.filter fun a => !decide (key a = k)).filter
                  fun a => decide (key a = k₁)).map val).sum).sum := by
          congr 1
          refine congrArg List.sum ((List.map_congr_left ?_).symm)
          intro k₁ hk₁
          exact htail k₁ hk₁
      _ = ((l.filter fun a => decide (key a = k)).map val).sum
          + ((l.filter fun a => !decide (key a = k)).map val).sum := by rw [hih]
      _ = (l.map val).sum := sum_map_filter_not _ val l

/-! ### Lemmas about the left join and the two builders -/

theorem filter_class_length_le_one (edgar_df : List EdgarRow)
    (h : (edgar_df.map fun e => e.Edgar_Class).Nodup) (k : String) :
    (edgar_df.filter fun e => decide (e.Edgar_Class = k)).length ≤ 1 := by
  induction edgar_df with
  | nil => simp
  | cons e es ih =>
    rw [List.map_cons, List.nodup_cons] at h
    rw [List.filter_cons]
    by_cases he : e.Edgar_Class = k
    · rw [if_pos (by simpa using he)]
      have hnil : es.filter (fun x => decide (x.Edgar_Class = k)) = [] := by
        rw [List.filter_eq_nil_iff]
        intro x hx
        simp only [decide_eq_true_eq]
        intro hk
        exact h.1 (List.mem_map.mpr ⟨x, hx, by rw [hk, he]⟩)
      rw [hnil]
      simp
    · rw [if_neg (by simpa using he)]
      exact ih h.2

theorem mergeLeftEdgar_eq_map (agg : List AggRow) (edgar_df : List EdgarRow)
    (h : (edgar_df.map fun e => e.Edgar_Class).Nodup) :
    mergeLeftEdgar agg edgar_df
      = agg.map fun a => (a, edgarLookup edgar_df a.Edgar_Class) := by
  induction agg with
  | nil => rfl
  | cons a rest ih =>
    rw [show mergeLeftEdgar (a :: rest) edgar_df
        = (match edgar_df.filter fun e => decide (e.Edgar_Class = a.Edgar_Class) with
           | [] => [(a, none)]
           | ms => ms.map fun e => (a, some e.Edgar_Values)) ++ mergeLeftEdgar rest edgar_df
      from rfl]
    rw [List.map_cons, ih]
    cases hm : edgar_df.filter fun e => decide (e.Edgar_Class = a.Edgar_Class) with
    | nil =>
      rw [show edgarLookup edgar_df a.Edgar_Class
          = ((edgar_df.filter fun e =>
              decide (e.Edgar_Class = a.Edgar_Class)).head?).map (fun e => e.Edgar_Values)
        from rfl, hm]
      rfl
    | cons e es =>
      have hlen := filter_class_length_le_one edgar_df h a.Edgar_Class
      rw [hm] at hlen
      have hes : es = [] := by
        cases es with
        | nil => rfl
        | cons x xs => simp at hlen
      subst hes
      rw [show edgarLookup edgar_df a.Edgar_Class
          = ((edgar_df.filter fun e =>
              decide (e.Edgar_Class = a.Edgar_Class)).head?).map (fun e => e.Edgar_Values)
        from rfl, hm]
      rfl

theorem detailed_eq_of_nodup (ref_year : ℤ) (draft : List AugRow)
    (edgar_df : List EdgarRow) (h : (edgar_df.map fun e => e.Edgar_Class).Nodup) :
    generate_detailed_diff_report ref_year draft edgar_df
      = (groupSimValues draft).map fun a =>
          { Year := ref_year, Subsector := a.Subsector, Edgar_Class := a.Edgar_Class,
            Simulation_Values := a.Simulation_Values,
            Edgar_Values := edgarLookup edgar_df a.Edgar_Class,
            diff := diffVal a.Simulation_Values (edgarLookup edgar_df a.Edgar_Class) } := by
  unfold generate_detailed_diff_report
  rw [mergeLeftEdgar_eq_map _ _ h, List.map_map]
  rfl

theorem subsector_filter_sum (ref_year : ℤ) (detailed : List DetailedRow) (s : String) :
    (((generate_subsector_diff_report ref_year detailed).filter
        fun t => decide (t.Subsector = s)).map fun t => t.Simulation_Values).sum
      = ((detailed.filter fun r => decide (r.Subsector = s)).map
          fun r => r.Simulation_Values).sum := by
  unfold generate_subsector_diff_report
  rw [List.filter_map]
  by_cases hs : s ∈ detailed.map fun r => r.Subsector
  · have huniq : s ∈ firstUniq (detailed.map fun r => r.Subsector) :=
      (mem_firstUniq _ _).mpr hs
    rw [show ((fun t => decide (t.Subsector = s)) ∘ fun s₁ =>
        subsectorRowOf ref_year detailed s₁) = fun s₁ => decide (s₁ = s) from rfl]
    rw [filter_eq_singleton_of_nodup _ s (nodup_firstUniq _) huniq]
    simp [subsectorRowOf]
  · have huniq : s ∉ firstUniq (detailed.map fun r => r.Subsector) := by
      rw [mem_firstUniq]; exact hs
    rw [show ((fun t => decide (t.Subsector = s)) ∘ fun s₁ =>
        subsectorRowOf ref_year detailed s₁) = fun s₁ => decide (s₁ = s) from rfl]
    rw [filter_eq_nil_of_not_mem _ s huniq]
    have hnil : detailed.filter (fun r => decide (r.Subsector = s)) = [] := by
      rw [List.filter_eq_nil_iff]
      intro r hr
      simp only [decide_eq_true_eq]
      intro e
      exact hs (List.mem_map.mpr ⟨r, hr, e⟩)
    rw [hnil]
    rfl

theorem groupSimValues_filter_sum (draft : List AugRow) (s : String) :
    (((groupSimValues draft).filter fun a => decide (a.Subsector = s)).map
        fun a => a.Simulation_Values).sum
      = ((draft.filter fun r => decide (r.Subsector = s)).map
          fun r => r.Simulation_Values).sum := by
  unfold groupSimValues
  rw [List.filter_map]
  rw [show ((fun a : AggRow => decide (a.Subsector = s)) ∘ aggRowOf draft)
      = fun k : String × String => decide (k.1 = s) from rfl]
  rw [List.map_map]
  rw [show ((fun a : AggRow => a.Simulation_Values) ∘ aggRowOf draft)
      = fun k : String × String =>
          ((draft.filter fun r => decide (pairOf r = k)).map
            fun r => r.Simulation_Values).sum from rfl]
  have hnd : ((firstUniq (draft.map pairOf)).filter fun k => decide (k.1 = s)).Nodup :=
    (nodup_firstUniq _).filter _
  have hcov : ∀ r ∈ draft.filter fun r => decide (r.Subsector = s),
      pairOf r ∈ (firstUniq (draft.map pairOf)).filter fun k => decide (k.1 = s) := by
    intro r hr
    rw [List.mem_filter] at hr ⊢
    constructor
    · rw [mem_firstUniq]
      exact List.mem_map.mpr ⟨r, hr.1, rfl⟩
    · simpa [pairOf] using hr.2
  have hpart := sum_partition pairOf (fun r => r.Simulation_Values)
      ((firstUniq (draft.map pairOf)).filter fun k => decide (k.1 = s))
      (draft.filter fun r => decide (r.Subsector = s)) hnd hcov
  rw [← hpart]
  refine congrArg List.sum (List.map_congr_left ?_)
  intro k hk
  rw [List.mem_filter] at hk
  have hk1 : k.1 = s := by simpa using hk.2
  rw [List.filter_filter]
  refine congrArg List.sum (congrArg (List.map _) ?_)
  apply List.filter_congr
  intro r _
  by_cases hp : pairOf r = k
  · have hrs : r.Subsector = s := by rw [← hk1, ← hp]; rfl
    simp [hp, hrs]
  · simp [hp]

theorem detailed_filter_sum_of_nodup (ref_year : ℤ) (draft : List AugRow)
    (edgar_df : List EdgarRow) (h : (edgar_df.map fun e => e.Edgar_Class).Nodup)
    (s : String) :
    (((generate_detailed_diff_report ref_year draft edgar_df).filter
        fun r => decide (r.Subsector = s)).map fun r => r.Simulation_Values).sum
      = ((draft.filter fun r => decide (r.Subsector = s)).map
          fun r => r.Simulation_Values).sum := by
  rw [detailed_eq_of_nodup ref_year draft edgar_df h]
  rw [List.filter_map, List.map_map]
  exact groupSimValues_filter_sum draft s

theorem subsector_fillEdgarZero (ref_year : ℤ) (detailed : List DetailedRow) :
    generate_subsector_diff_report ref_year (detailed.map fillEdgarZero)
      = generate_subsector_diff_report ref_year detailed := by
  unfold generate_subsector_diff_report
  rw [List.map_map]
  rw [show ((fun r : DetailedRow => r.Subsector) ∘ fillEdgarZero)
      = fun r : DetailedRow => r.Subsector from rfl]
  refine List.map_congr_left ?_
  intro s _
  simp only [subsectorRowOf]
  rw [List.filter_map, List.map_map, List.map_map]
  rfl

theorem mem_detailed_unmatched (ref_year : ℤ) (draft : List AugRow)
    (edgar_df : List EdgarRow) (r : DetailedRow)
    (hr : r ∈ generate_detailed_diff_report ref_year draft edgar_df)
    (hcl : r.Edgar_Class ∉ edgar_df.map fun e => e.Edgar_Class) :
    r.Edgar_Values = none := by
  unfold generate_detailed_diff_report at hr
  rcases List.mem_map.mp hr with ⟨p, hp, rfl⟩
  unfold mergeLeftEdgar at hp
  rcases List.mem_flatMap.mp hp with ⟨a, _, hpa⟩
  cases hm : edgar_df.filter fun e => decide (e.Edgar_Class = a.Edgar_Class) with
  | nil =>
    rw [hm] at hpa
    rw [List.mem_singleton] at hpa
    subst hpa
    rfl
  | cons e es =>
    rw [hm] at hpa
    exfalso
    rcases List.mem_map.mp hpa with ⟨e₁, he₁, rfl⟩
    have he₁f : e₁ ∈ edgar_df.filter fun e => decide (e.Edgar_Class = a.Edgar_Class) := by
      rw [hm]; exact he₁
    rw [List.mem_filter] at he₁f
    have hcls : e₁.Edgar_Class = a.Edgar_Class := by simpa using he₁f.2
    exact hcl (List.mem_map.mpr ⟨e₁, he₁f.1, hcls⟩)

/-! ### Case lemmas for the relative difference -/

theorem diffVal_none (s : ℚ) : diffVal s none = EVal.nan := rfl

theorem diffVal_some_ne_zero (s q : ℚ) (h : q ≠ 0) :
    diffVal s (some q) = EVal.fin ((s - q) / q) := by
  show (if q = 0 then
      if 0 < s - q then EVal.posInf else if s - q < 0 then EVal.negInf else EVal.nan
    else EVal.fin ((s - q) / q)) = EVal.fin ((s - q) / q)
  rw [if_neg h]

theorem diffVal_some_zero_undefined (s : ℚ) :
    (diffVal s (some 0)).isUndefined = true := by
  show (if (0 : ℚ) = 0 then
      if 0 < s - 0 then EVal.posInf else if s - 0 < 0 then EVal.negInf else EVal.nan
    else EVal.fin ((s - 0) / 0)).isUndefined = true
  rw [if_pos rfl]
  split_ifs <;> rfl

theorem mem_detailed_diff_eq (ref_year : ℤ) (draft : List AugRow)
    (edgar_df : List EdgarRow) (r : DetailedRow)
    (hr : r ∈ generate_detailed_diff_report ref_year draft edgar_df) :
    r.diff = diffVal r.Simulation_Values r.Edgar_Values := by
  unfold generate_detailed_diff_report at hr
  rcases List.mem_map.mp hr with ⟨p, _, rfl⟩
  rfl

theorem mem_subsector_diff_eq (ref_year : ℤ) (detailed : List DetailedRow)
    (t : SubsectorRow) (ht : t ∈ generate_subsector_diff_report ref_year detailed) :
    t.diff = diffVal t.Simulation_Values (some t.Edgar_Values) := by
  unfold generate_subsector_diff_report at ht
  rcases List.mem_map.mp ht with ⟨s, _, rfl⟩
  rfl

/-! ### Counting lemma for the detailed report -/

theorem detailed_count_of_nodup (ref_year : ℤ) (draft : List AugRow)
    (edgar_df : List EdgarRow) (h : (edgar_df.map fun e => e.Edgar_Class).Nodup)
    (s e : String) :
    ((generate_detailed_diff_report ref_year draft edgar_df).filter
        fun r => decide (r.Subsector = s ∧ r.Edgar_Class = e)).length
      = if (s, e) ∈ draft.map pairOf then 1 else 0 := by
  rw [detailed_eq_of_nodup ref_year draft edgar_df h]
  rw [List.filter_map, List.length_map]
  unfold groupSimValues
  rw [List.filter_map, List.length_map]
  show (List.filter (fun k : String × String => decide (k.1 = s ∧ k.2 = e))
      (firstUniq (draft.map pairOf))).length = _
  have hpred : ∀ k ∈ firstUniq (draft.map pairOf),
      decide (k.1 = s ∧ k.2 = e) = decide (k = (s, e)) :=
    fun k _ => decide_eq_decide.mpr (@Prod.ext_iff String String k (s, e)).symm
  rw [List.filter_congr hpred]
  rw [length_filter_eq_of_nodup _ _ (nodup_firstUniq _)]
  by_cases hmem : (s, e) ∈ draft.map pairOf
  · rw [if_pos ((mem_firstUniq _ _).mpr hmem), if_pos hmem]
  · rw [if_neg (fun hc => hmem ((mem_firstUniq _ _).mp hc)), if_neg hmem]

/-! ### Characterization of the simulation filter -/

theorem load_sim_rows_char (cfg : SectoralDiffReport) (df : DataFrame) (r : Row) :
    r ∈ (load_simulation_output_data cfg df).rows ↔
      ∃ r₀, r₀ ∈ df.rows ∧
        r = setCol r₀ "year" (getVal r₀ "time_period" + (cfg.init_year : ℚ)) ∧
        getVal r₀ "time_period" + (cfg.init_year : ℚ) = (cfg.ref_year : ℚ) ∧
        getVal r₀ "primary_id" = (cfg.ref_primary_id : ℚ) := by
  have hpy : ("primary_id" : String) ≠ "year" := by decide
  simp only [load_simulation_output_data, addYearColumn, List.mem_filter, List.mem_map,
    refSliceP, Bool.and_eq_true, decide_eq_true_eq]
  constructor
  · rintro ⟨⟨r₀, hr₀, rfl⟩, hy, hp⟩
    rw [getVal_setCol_self] at hy
    rw [getVal_setCol_ne _ _ _ _ hpy] at hp
    exact ⟨r₀, hr₀, rfl, hy, hp⟩
  · rintro ⟨r₀, hr₀, rfl, hy, hp⟩
    refine ⟨⟨r₀, hr₀, rfl⟩, ?_, ?_⟩
    · rw [getVal_setCol_self]
      exact hy
    · rw [getVal_setCol_ne _ _ _ _ hpy]
      exact hp

/-! ### Aggregator lemmas -/

theorem augmentRow_all_missing (simulation_df : DataFrame) (m : MappingRow)
    (h : ∀ v ∈ varsOf m.Vars, v ∉ simulation_df.cols) :
    (augmentRow simulation_df m).Simulation_Values = 0 := by
  unfold augmentRow
  have hnil : (varsOf m.Vars).filter (fun v => decide (v ∈ simulation_df.cols)) = [] := by
    rw [List.filter_eq_nil_iff]
    intro v hv
    simpa using h v hv
  simp [hnil]

theorem mem_missingInRow (cols : List String) (m : MappingRow) (v : String) :
    v ∈ missingInRow cols m ↔ v ∈ varsOf m.Vars ∧ v ∉ cols := by
  unfold missingInRow
  rw [List.mem_filter]
  simp

/-! ### Claim theorems -/

/-- C1: For every mapping row whose `Vars` entries (split on ':') are all
absent, under case-sensitive exact matching, from the field names of the
simulation slice, the Aggregator sets that row's `Simulation_Values` to 0;
and every missing variable referenced by some mapping row appears in the
diagnostic missing-variable collection exactly once, however many rows
reference it. -/
theorem C1_missing_vars_zero_and_diagnostic_once (simulation_df : DataFrame)
    (mapping_df : List MappingRow) :
    (∀ r ∈ (calculate_ssp_emission_totals simulation_df mapping_df).1,
        (∀ v ∈ varsOf r.Vars, v ∉ simulation_df.cols) → r.Simulation_Values = 0)
    ∧ (∀ v : String,
        (∃ m ∈ mapping_df, v ∈ varsOf m.Vars ∧ v ∉ simulation_df.cols) →
          ((calculate_ssp_emission_totals simulation_df mapping_df).2).count v = 1) := by
  constructor
  · intro r hr hvars
    rcases List.mem_map.mp hr with ⟨m, _, rfl⟩
    exact augmentRow_all_missing simulation_df m hvars
  · rintro v ⟨m, hm, hv, hnc⟩
    have hmem : v ∈ (calculate_ssp_emission_totals simulation_df mapping_df).2 := by
      show v ∈ mapping_df.foldl
        (fun missing_variables row =>
          setUpdate missing_variables (missingInRow simulation_df.cols row)) []
      rw [mem_missing_foldl]
      exact Or.inr ⟨m, hm, (mem_missingInRow _ _ _).mpr ⟨hv, hnc⟩⟩
    have hnd : ((calculate_ssp_emission_totals simulation_df mapping_df).2).Nodup := by
      show (mapping_df.foldl
        (fun missing_variables row =>
          setUpdate missing_variables (missingInRow simulation_df.cols row)) []).Nodup
      exact nodup_missing_foldl _ _ _ List.nodup_nil
    exact List.count_eq_one_of_mem hnd hmem

/-- C1 witness: on a concrete slice with no matching columns, the first
mapping row aggregates to 0 and the doubly-referenced `CO2_A` is reported
exactly once. -/
theorem C1_missing_vars_zero_and_diagnostic_once_witness :
    (augmentRow simC1 mapRowC1a).Simulation_Values = 0
    ∧ ((calculate_ssp_emission_totals simC1 mapC1).2).count "CO2_A" = 1 := by
  constructor
  · exact (C1_missing_vars_zero_and_diagnostic_once simC1 mapC1).1
      (augmentRow simC1 mapRowC1a)
      (by simp [calculate_ssp_emission_totals, mapC1]) (by decide)
  · exact (C1_missing_vars_zero_and_diagnostic_once simC1 mapC1).2 "CO2_A"
      ⟨mapRowC1a, by simp [mapC1], by decide, by decide⟩

/-- C2 counterexample: with a reference table that repeats an `Edgar_Class`
key, the left join duplicates the grouped simulation row, so the subsector
roll-up of the built reports does not equal the direct roll-up of the
augmented mapping table. -/
theorem C2_rollup_commutes_cex :
    ¬ ((((generate_subsector_diff_report 2015
            (generate_detailed_diff_report 2015 draftC2 edgarC2)).filter
          fun t => decide (t.Subsector = "Transport")).map
            fun t => t.Simulation_Values).sum
        = ((draftC2.filter fun r => decide (r.Subsector = "Transport")).map
            fun r => r.Simulation_Values).sum) := by
  simp [generate_subsector_diff_report, generate_detailed_diff_report, mergeLeftEdgar,
    groupSimValues, firstUniq, pairOf, aggRowOf, detailedRowOf, subsectorRowOf,
    draftC2, edgarC2, List.filter_cons]

/-- C2 (amended): provided the reference long-form table has pairwise distinct
`Edgar_Class` keys, the two-level roll-up commutes: for every subsector, the
`Simulation_Values` total of the subsector report built from the detailed
report equals the direct per-subsector total of the augmented mapping table. -/
theorem C2_rollup_commutes_of_nodup_classes (ref_year : ℤ) (draft : List AugRow)
    (edgar_df : List EdgarRow) (h : (edgar_df.map fun e => e.Edgar_Class).Nodup)
    (s : String) :
    (((generate_subsector_diff_report ref_year
          (generate_detailed_diff_report ref_year draft edgar_df)).filter
        fun t => decide (t.Subsector = s)).map fun t => t.Simulation_Values).sum
      = ((draft.filter fun r => decide (r.Subsector = s)).map
          fun r => r.Simulation_Values).sum := by
  rw [subsector_filter_sum]
  exact detailed_filter_sum_of_nodup ref_year draft edgar_df h s

/-- C2 witness: the amended roll-up equality at a concrete mapping table and a
duplicate-free reference table. -/
theorem C2_rollup_commutes_witness :
    (((generate_subsector_diff_report 2015
          (generate_detailed_diff_report 2015 draftC2 edgarC2w)).filter
        fun t => decide (t.Subsector = "Transport")).map
          fun t => t.Simulation_Values).sum
      = ((draftC2.filter fun r => decide (r.Subsector = "Transport")).map
          fun r => r.Simulation_Values).sum :=
  C2_rollup_commutes_of_nodup_classes 2015 draftC2 edgarC2w (by simp [edgarC2w])
    "Transport"

/-- C3: in both reports `diff` is `(sim - ref) / ref`; a zero reference value
yields an explicit undefined marker (infinity or NaN), a missing reference
value yields NaN, and no exception can be raised (all builders are total
functions). -/
theorem C3_diff_semantics (ref_year : ℤ) (draft : List AugRow)
    (edgar_df : List EdgarRow) (detailed : List DetailedRow) :
    (∀ r ∈ generate_detailed_diff_report ref_year draft edgar_df,
        (∀ q : ℚ, r.Edgar_Values = some q → q ≠ 0 →
            r.diff = EVal.fin ((r.Simulation_Values - q) / q))
        ∧ (r.Edgar_Values = some 0 → r.diff.isUndefined = true)
        ∧ (r.Edgar_Values = none → r.diff = EVal.nan))
    ∧ (∀ t ∈ generate_subsector_diff_report ref_year detailed,
        (t.Edgar_Values ≠ 0 →
            t.diff = EVal.fin ((t.Simulation_Values - t.Edgar_Values) / t.Edgar_Values))
        ∧ (t.Edgar_Values = 0 → t.diff.isUndefined = true)) := by
  constructor
  · intro r hr
    have hd := mem_detailed_diff_eq ref_year draft edgar_df r hr
    refine ⟨?_, ?_, ?_⟩
    · intro q hq hq0
      rw [hd, hq]
      exact diffVal_some_ne_zero _ _ hq0
    · intro hq
      rw [hd, hq]
      exact diffVal_some_zero_undefined _
    · intro hq
      rw [hd, hq]
      exact diffVal_none _
  · intro t ht
    have hd := mem_subsector_diff_eq ref_year detailed t ht
    refine ⟨?_, ?_⟩
    · intro h0
      rw [hd]
      exact diffVal_some_ne_zero _ _ h0
    · intro h0
      rw [hd, h0]
      exact diffVal_some_zero_undefined _

/-- C3 witness: a detailed row joined to a zero reference value, and a
subsector row whose reference total is zero, both carry an undefined diff. -/
theorem C3_diff_semantics_witness :
    ((detailedRowOf 2015 (aggRowOf draftC3 ("A", "A:CO2"), some 0)).diff).isUndefined
        = true
    ∧ ((subsectorRowOf 2015 detC3 "A").diff).isUndefined = true := by
  have hmem : detailedRowOf 2015 (aggRowOf draftC3 ("A", "A:CO2"), some 0)
      ∈ generate_detailed_diff_report 2015 draftC3 edgarC3 := by
    simp [generate_detailed_diff_report, mergeLeftEdgar, groupSimValues, firstUniq,
      pairOf, aggRowOf, detailedRowOf, draftC3, edgarC3, List.filter_cons]
  have hmem2 : subsectorRowOf 2015 detC3 "A"
      ∈ generate_subsector_diff_report 2015 detC3 := by
    simp [generate_subsector_diff_report, firstUniq, detC3]
  have hz : (subsectorRowOf 2015 detC3 "A").Edgar_Values = 0 := by
    simp [subsectorRowOf, detC3]
  exact ⟨((C3_diff_semantics 2015 draftC3 edgarC3 detC3).1 _ hmem).2.1 rfl,
         ((C3_diff_semantics 2015 draftC3 edgarC3 detC3).2 _ hmem2).2 hz⟩

/-- C4 counterexample: with a reference table repeating an `Edgar_Class` key,
the detailed report holds two rows for the single distinct
(Subsector, Edgar_Class) pair of the mapping, not exactly one. -/
theorem C4_one_row_per_pair_cex :
    ¬ (((generate_detailed_diff_report 2015 draftC2 edgarC2).filter
        fun r => decide (r.Subsector = "Transport" ∧ r.Edgar_Class = "Transport:CO2")).length
      = 1) := by
  simp [generate_detailed_diff_report, mergeLeftEdgar, groupSimValues, firstUniq,
    pairOf, aggRowOf, detailedRowOf, draftC2, edgarC2, List.filter_cons]

/-- C4 (amended): provided the reference table has pairwise distinct
`Edgar_Class` keys, the detailed report has exactly one row per distinct
(Subsector, Edgar_Class) pair of the mapping and none otherwise; a row whose
class has no reference match is retained with `Edgar_Values` missing rather
than dropped or raising. -/
theorem C4_one_row_per_pair_of_nodup_classes (ref_year : ℤ) (draft : List AugRow)
    (edgar_df : List EdgarRow)
    (h : (edgar_df.map fun e => e.Edgar_Class).Nodup) :
    (∀ s e : String,
        ((generate_detailed_diff_report ref_year draft edgar_df).filter
            fun r => decide (r.Subsector = s ∧ r.Edgar_Class = e)).length
          = if (s, e) ∈ draft.map pairOf then 1 else 0)
    ∧ (∀ r ∈ generate_detailed_diff_report ref_year draft edgar_df,
        r.Edgar_Class ∉ edgar_df.map (fun e => e.Edgar_Class) →
          r.Edgar_Values = none) :=
  ⟨fun s e => detailed_count_of_nodup ref_year draft edgar_df h s e,
   fun r hr hcl => mem_detailed_unmatched ref_year draft edgar_df r hr hcl⟩

/-- C4 witness: the amended row-count equality at a concrete mapping table and
a duplicate-free reference table. -/
theorem C4_one_row_per_pair_witness :
    ((generate_detailed_diff_report 2015 draftC2 edgarC2w).filter
        fun r => decide (r.Subsector = "Transport" ∧ r.Edgar_Class = "Transport:CO2")).length
      = if ("Transport", "Transport:CO2") ∈ draftC2.map pairOf then 1 else 0 :=
  (C4_one_row_per_pair_of_nodup_classes 2015 draftC2 edgarC2w
    (by simp [edgarC2w])).1 "Transport" "Transport:CO2"

/-- C5: the Simulation Filter returns exactly the input rows (extended with
the derived `year` column) whose `time_period + init_year` equals `ref_year`
and whose `primary_id` equals `ref_primary_id`; in the concrete scenario with
`init_year = 2010`, `ref_year = 2015`, `ref_primary_id = 0`, only the
`primary_id = 0` row is retained. -/
theorem C5_simulation_filter :
    (∀ (cfg : SectoralDiffReport) (simulation_df : DataFrame) (r : Row),
        r ∈ (load_simulation_output_data cfg simulation_df).rows ↔
          ∃ r₀, r₀ ∈ simulation_df.rows ∧
            r = setCol r₀ "year" (getVal r₀ "time_period" + (cfg.init_year : ℚ)) ∧
            getVal r₀ "time_period" + (cfg.init_year : ℚ) = (cfg.ref_year : ℚ) ∧
            getVal r₀ "primary_id" = (cfg.ref_primary_id : ℚ))
    ∧ (load_simulation_output_data cfgC5 simC5).rows
        = [[("time_period", 5), ("primary_id", 0), ("CO2", 3), ("year", 2015)]] := by
  constructor
  · exact load_sim_rows_char
  · simp [load_simulation_output_data, addYearColumn, setCol, refSliceP, getVal,
      lookupQ, simC5, cfgC5, rowC5a, rowC5b, List.filter_cons]
    norm_num [lookupQ, List.filter_cons]

/-- C5 witness: the concrete filter scenario extracted from the theorem. -/
theorem C5_simulation_filter_witness :
    (load_simulation_output_data cfgC5 simC5).rows
      = [[("time_period", 5), ("primary_id", 0), ("CO2", 3), ("year", 2015)]] :=
  C5_simulation_filter.2

/-- C6: if the reference inventory lacks the column named by the string form
of the target year, the pipeline aborts with a schema error and writes no
output report file at all. -/
theorem C6_missing_year_schema_error (cfg : SectoralDiffReport)
    (mapping_df : List MappingRow) (edgar_csv : EdgarCSV)
    (simulation_df : DataFrame)
    (h : toString cfg.ref_year ∉ edgar_csv.yearCols) :
    generate_diff_reports cfg (some mapping_df) (some edgar_csv) simulation_df
      = (Except.error ("SchemaError: missing reference year column "
          ++ toString cfg.ref_year), []) := by
  simp [generate_diff_reports, load_mapping_table, edgar_data_etl, h]

/-- C6 witness: the concrete reference file lacking the "2015" column aborts
the pipeline with the schema error and an empty list of written files. -/
theorem C6_missing_year_schema_error_witness :
    generate_diff_reports cfgC5 (some []) (some edgarC6) simC1
      = (Except.error ("SchemaError: missing reference year column "
          ++ toString (2015 : ℤ)), []) :=
  C6_missing_year_schema_error cfgC5 [] edgarC6 simC1 (by decide)

/-- C7 counterexample: a mapping file missing the required `Vars` column is
loaded successfully by the Mapping Loader instead of failing. -/
theorem C7_loader_fails_cex :
    ("Vars" ∉ mappingNoVars.cols)
    ∧ load_mapping_table (some mappingNoVars) = Except.ok mappingNoVars
    ∧ ∀ e, load_mapping_table (some mappingNoVars) ≠ Except.error e := by
  refine ⟨by decide, rfl, ?_⟩
  intro e he
  simp [load_mapping_table] at he

/-- C7 (amended): the Mapping Loader fails exactly when the file itself cannot
be read or parsed; it performs no validation of the required columns, passing
any successfully read content through unchanged (missing `Sector`,
`Subsector` or `Vars` columns surface only in later stages). -/
theorem C7_loader_fails_iff_unreadable {α : Type} (file : Option α) :
    ((∃ e, load_mapping_table file = Except.error e) ↔ file = none)
    ∧ (∀ t, file = some t → load_mapping_table file = Except.ok t) := by
  constructor
  · constructor
    · rintro ⟨e, he⟩
      cases file with
      | none => rfl
      | some t => simp [load_mapping_table] at he
    · rintro rfl
      exact ⟨_, rfl⟩
  · rintro t rfl
    rfl

/-- C7 witness: the loader passes a malformed mapping file through unchanged. -/
theorem C7_loader_fails_iff_unreadable_witness :
    load_mapping_table (some mappingNoVars) = Except.ok mappingNoVars :=
  (C7_loader_fails_iff_unreadable (some mappingNoVars)).2 mappingNoVars rfl

/-- C8: no stage mutates a frame it was given: after the Simulation Filter,
the Aggregator and the Detailed Diff Builder run on a store, every frame that
existed before the call is unchanged; each stage works on a freshly allocated
copy. -/
theorem C8_no_input_mutation (cfg : SectoralDiffReport) (simulation_df : DataFrame)
    (ref_year : ℤ) (edgar_df : List EdgarRow) (store : List Frame) (h j : ℕ)
    (hj : j < store.length) :
    ((load_simulation_output_data_store cfg store h).1)[j]? = store[j]?
    ∧ ((calculate_ssp_emission_totals_store simulation_df store h).1)[j]? = store[j]?
    ∧ ((generate_detailed_diff_report_store ref_year edgar_df store h).1)[j]? = store[j]? := by
  refine ⟨?_, ?_, ?_⟩
  · simp only [load_simulation_output_data_store]
    rw [List.getElem?_append_left
      (by rw [List.length_set, List.length_append]; simp; omega)]
    rw [List.getElem?_set_ne (by omega)]
    rw [List.getElem?_append_left hj]
  · simp only [calculate_ssp_emission_totals_store]
    rw [List.getElem?_set_ne (by omega)]
    rw [List.getElem?_append_left hj]
  · simp only [generate_detailed_diff_report_store]
    rw [List.getElem?_append_left
      (by rw [List.length_append]; simp; omega)]
    rw [List.getElem?_append_left hj]

/-- C8 witness: a one-frame store is unchanged at index 0 by all three store
embeddings. -/
theorem C8_no_input_mutation_witness :
    ((load_simulation_output_data_store cfgC5 storeC8 0).1)[0]? = storeC8[0]?
    ∧ ((calculate_ssp_emission_totals_store simC1 storeC8 0).1)[0]? = storeC8[0]?
    ∧ ((generate_detailed_diff_report_store 2015 [] storeC8 0).1)[0]? = storeC8[0]? :=
  C8_no_input_mutation cfgC5 simC1 2015 [] storeC8 0 0 (by decide)

/-- C9: the pipeline is deterministic: two runs of the orchestrator on equal
simulation tables, mapping files and reference files produce equal results
and equal written report files. -/
theorem C9_deterministic (cfg : SectoralDiffReport)
    (mappingFile₁ mappingFile₂ : Option (List MappingRow))
    (edgarFile₁ edgarFile₂ : Option EdgarCSV)
    (simulation_df₁ simulation_df₂ : DataFrame)
    (hm : mappingFile₁ = mappingFile₂) (he : edgarFile₁ = edgarFile₂)
    (hs : simulation_df₁ = simulation_df₂) :
    generate_diff_reports cfg mappingFile₁ edgarFile₁ simulation_df₁
      = generate_diff_reports cfg mappingFile₂ edgarFile₂ simulation_df₂ := by
  rw [hm, he, hs]

/-- C9 witness: two runs on identical concrete inputs coincide. -/
theorem C9_deterministic_witness :
    generate_diff_reports cfgC5 none none simC1
      = generate_diff_reports cfgC5 none none simC1 :=
  C9_deterministic cfgC5 none none none none simC1 simC1 rfl rfl rfl

/-- C10: in the Subsector Diff Builder a missing `Edgar_Values` contributes 0
to the subsector sum, so a missing reference match is indistinguishable from a
matched zero; concretely, a detailed report can contain a row with an
undefined diff while its subsector's diff is a defined finite number. -/
theorem C10_missing_reference_as_zero :
    (∀ (ref_year : ℤ) (detailed : List DetailedRow),
        generate_subsector_diff_report ref_year (detailed.map fillEdgarZero)
          = generate_subsector_diff_report ref_year detailed)
    ∧ (∃ r ∈ generate_detailed_diff_report 2015 draftC10 edgarC10,
        r.diff.isUndefined = true)
    ∧ generate_subsector_diff_report 2015
        (generate_detailed_diff_report 2015 draftC10 edgarC10)
      = [{ Year := 2015, Subsector := "A", Simulation_Values := 4,
           Edgar_Values := 4, diff := EVal.fin 0 }] := by
  refine ⟨subsector_fillEdgarZero, ?_, ?_⟩
  · refine ⟨detailedRowOf 2015 (aggRowOf draftC10 ("A", "A:CH4"), none), ?_, rfl⟩
    simp [generate_detailed_diff_report, mergeLeftEdgar, groupSimValues, firstUniq,
      pairOf, aggRowOf, detailedRowOf, draftC10, edgarC10, List.filter_cons]
  · simp [generate_subsector_diff_report, generate_detailed_diff_report, mergeLeftEdgar,
      groupSimValues, firstUniq, pairOf, aggRowOf, detailedRowOf, subsectorRowOf,
      diffVal, draftC10, edgarC10, List.filter_cons]
    norm_num

/-- C10 witness: the fill-by-zero invariance applied at a concrete detailed
report containing a missing reference value. -/
theorem C10_missing_reference_as_zero_witness :
    generate_subsector_diff_report 2015 (detC3.map fillEdgarZero)
      = generate_subsector_diff_report 2015 detC3 :=
  C10_missing_reference_as_zero.1 2015 detC3

end SectoralDiff
